import Mathlib

/-!
Shallow embedding of the no-emo-vibe diary backend (src/api) and proofs
about its request handlers.

The embedding follows the source files:
* `models.py` — ORM rows `User` and `DiaryEntry`.  ORM attribute slots can
  hold `NULL` before a commit, so the five diary content columns are
  `Option`-typed here; the `NOT NULL` column constraints of
  `entry_date`, `mood_score`, `mood_percentage` are checked at commit time
  by `DiaryEntry.notNullOk` (a commit violating them raises, is caught by
  the handler's generic `except`, rolls back, and surfaces as a 500).
* `schemas.py` — pydantic request/response models.  In `DiaryEntryUpdate`
  every field is optional; pydantic distinguishes a field that is absent
  from the request from one explicitly sent as `null` (`exclude_unset`),
  so each update field is `Option (Option _)`: `none` = absent,
  `some none` = sent as null, `some (some v)` = sent with value `v`.
* `main.py` — the four handlers `register_device`, `create_diary_entry`,
  `get_diary_entries`, `update_diary_entry`, embedded as pure functions
  from a database state `DB` to a result paired with the post-state.
  A raise-before-commit or a rollback leaves the state unchanged, so
  every error path returns the input state.

The relational store is a list of rows per table; primary keys are modelled
by explicit `next_*` counters (autoincrement).  The query
`order_by(DiaryEntry.entry_date.desc())` is modelled as a stable sort of
the store's rows by `entry_date` descending: the handler supplies only the
one sort key, and the relative order of rows that tie on it is whatever
row order the storage engine yields, modelled here as the order of the
`entries` list.  Timestamps are abstract `Nat` clock values passed in as
`now`; `entry_date` values are `Int`.
-/

namespace NoEmoVibe

/-- `users` table row (models.py `User`). -/
structure User where
  user_id : Nat
  device_id : String
  created_at : Nat
  updated_at : Nat
deriving DecidableEq

/-- `diary_entries` table row (models.py `DiaryEntry`).  The five content
columns are `Option`-typed because the ORM object can hold `NULL` in any
of them before a commit; `notNullOk` below captures which of them the
schema declares `NOT NULL`. -/
structure DiaryEntry where
  entry_id : Nat
  user_id : Nat
  entry_uuid : String
  entry_date : Option Int
  mood_score : Option Int
  mood_percentage : Option Int
  activities : Option (List String)
  notes : Option String
  created_at : Nat
  updated_at : Nat
deriving DecidableEq

/-- The `NOT NULL` constraints on `diary_entries` (models.py): `entry_date`,
`mood_score` and `mood_percentage` are `nullable=False`; `activities` and
`notes` may be `NULL`.  A commit of a row violating this fails at the
storage layer. -/
def DiaryEntry.notNullOk (e : DiaryEntry) : Bool :=
  e.entry_date.isSome && e.mood_score.isSome && e.mood_percentage.isSome

/-- An HTTP error (`HTTPException(status_code=..., detail=...)`). -/
structure HErr where
  status : Nat
  detail : String
deriving DecidableEq

/-- The `data` payload of a success response: `register_device` returns
`{user_id, device_id}`, `create_diary_entry` and `update_diary_entry`
return `{entry_id, entry_uuid}` (main.py). -/
inductive RData where
  | userData (user_id : Nat) (device_id : String)
  | entryData (entry_id : Nat) (entry_uuid : String)
deriving DecidableEq

/-- schemas.py `APIResponse`: success flag, message, optional payload. -/
structure APIResponse where
  success : Bool
  message : String
  data : Option RData := none
deriving DecidableEq

/-- The body a handler returns on success: `register_device`,
`create_diary_entry` and `update_diary_entry` return an `APIResponse`
envelope, while `get_diary_entries` returns the bare list of rows
(`return entries` in main.py). -/
inductive HResult where
  | envelope (r : APIResponse)
  | entryList (es : List DiaryEntry)
deriving DecidableEq

/-- Whether a success body is the `{success, message, data}` envelope. -/
def HResult.hasEnvelope : HResult → Bool
  | .envelope _ => true
  | .entryList _ => false

/-- Projection: the `success` flag of an envelope result, if any. -/
def respSuccess : Except HErr HResult → Option Bool
  | .ok (.envelope a) => some a.success
  | _ => none

/-- Projection: the `message` of an envelope result, if any. -/
def respMessage : Except HErr HResult → Option String
  | .ok (.envelope a) => some a.message
  | _ => none

/-- Projection: the `data` payload of an envelope result, if any. -/
def respData : Except HErr HResult → Option RData
  | .ok (.envelope a) => a.data
  | _ => none

/-- The relational store: the two tables plus autoincrement counters. -/
structure DB where
  users : List User
  entries : List DiaryEntry
  next_user_id : Nat
  next_entry_id : Nat
deriving DecidableEq

/-- A freshly created store (`create_tables` on an empty database). -/
def emptyDB : DB := { users := [], entries := [], next_user_id := 1, next_entry_id := 1 }

/-- `db.query(User).filter(User.device_id == device_id).first()`. -/
def findUser (db : DB) (device_id : String) : Option User :=
  db.users.find? (fun u => u.device_id == device_id)

/-- `db.query(DiaryEntry).filter(user_id == uid, entry_uuid == uuid).first()`. -/
def findEntry (db : DB) (uid : Nat) (uuid : String) : Option DiaryEntry :=
  db.entries.find? (fun e => e.user_id == uid && e.entry_uuid == uuid)

/-- main.py `register_device`: return the existing user if the device_id is
known, otherwise insert a new `User` row. -/
def register_device (db : DB) (device_id : String) (now : Nat) :
    Except HErr HResult × DB :=
  match findUser db device_id with
  | some u =>
      (.ok (.envelope
        { success := true, message := "Device already exists",
          data := some (.userData u.user_id u.device_id) }), db)
  | none =>
      let u : User :=
        { user_id := db.next_user_id, device_id := device_id,
          created_at := now, updated_at := now }
      (.ok (.envelope
        { success := true, message := "Device registered successfully",
          data := some (.userData u.user_id u.device_id) }),
       { db with users := db.users ++ [u], next_user_id := db.next_user_id + 1 })

/-- schemas.py `UserCreate`: the request body of `register_device`. -/
structure UserCreate where
  device_id : String
deriving DecidableEq

/-- Pydantic validation of `UserCreate` (schemas.py): `device_id: str` is a
required field with no further constraint, so a request missing the field
is rejected with a 422 validation error, while any string — including the
empty string — is accepted. -/
def parseUserCreate (device_id : Option String) : Except HErr UserCreate :=
  match device_id with
  | none => .error { status := 422, detail := "Field required" }
  | some s => .ok { device_id := s }

/-- `register_device` including the pydantic validation layer: the raw body
either lacks the `device_id` field (`none`) or carries a string. -/
def registerEndpoint (db : DB) (body_device_id : Option String) (now : Nat) :
    Except HErr HResult × DB :=
  match parseUserCreate body_device_id with
  | .error e => (.error e, db)
  | .ok u => register_device db u.device_id now

/-- schemas.py `DiaryEntryCreate`: the request body of `create_diary_entry`;
`activities` defaults to `[]` and `notes` to `""`. -/
structure DiaryEntryCreate where
  entry_uuid : String
  entry_date : Int
  mood_score : Int
  mood_percentage : Int
  activities : Option (List String) := some []
  notes : Option String := some ""
  device_id : String
deriving DecidableEq

/-- main.py `create_diary_entry`: 404 if the device is not registered, 409
if a row with the same (user_id, entry_uuid) exists, otherwise insert a
new `DiaryEntry` row. -/
def create_diary_entry (db : DB) (c : DiaryEntryCreate) (now : Nat) :
    Except HErr HResult × DB :=
  match findUser db c.device_id with
  | none => (.error { status := 404, detail := "Device not registered" }, db)
  | some user =>
      match findEntry db user.user_id c.entry_uuid with
      | some _ => (.error { status := 409, detail := "Diary entry already exists" }, db)
      | none =>
          let e : DiaryEntry :=
            { entry_id := db.next_entry_id, user_id := user.user_id,
              entry_uuid := c.entry_uuid, entry_date := some c.entry_date,
              mood_score := some c.mood_score, mood_percentage := some c.mood_percentage,
              activities := c.activities, notes := c.notes,
              created_at := now, updated_at := now }
          (.ok (.envelope
            { success := true, message := "Diary entry uploaded successfully",
              data := some (.entryData e.entry_id e.entry_uuid) }),
           { db with entries := db.entries ++ [e], next_entry_id := db.next_entry_id + 1 })

/-- The sort key of `order_by(DiaryEntry.entry_date.desc())`.  Stored rows
always satisfy the `NOT NULL` constraint on `entry_date`, so the `getD`
default is never exercised on rows the API created. -/
def dateKey (e : DiaryEntry) : Int := e.entry_date.getD 0

/-- The descending `entry_date` order the list query sorts by: `a` comes
no later than `b` when `b`'s date is at most `a`'s. -/
def dateGe (a b : DiaryEntry) : Prop := dateKey b ≤ dateKey a

instance : DecidableRel dateGe := fun _ _ => inferInstanceAs (Decidable (_ ≤ _))

instance : IsTotal DiaryEntry dateGe := ⟨fun a b => le_total (dateKey b) (dateKey a)⟩

instance : IsTrans DiaryEntry dateGe := ⟨fun _ _ _ hab hbc => le_trans hbc hab⟩

/-- The rows of `db.query(DiaryEntry).filter(DiaryEntry.user_id == uid)`,
in the storage engine's row order. -/
def userEntries (db : DB) (uid : Nat) : List DiaryEntry :=
  db.entries.filter (fun e => e.user_id == uid)

/-- main.py `get_diary_entries`: 404 if the device is not registered,
otherwise the user's rows ordered by `entry_date` descending (a stable
sort over the store's row order — the query names no secondary key), and
— unlike the other handlers — returned as a bare list, not wrapped in an
`APIResponse`. -/
def get_diary_entries (db : DB) (device_id : String) :
    Except HErr HResult × DB :=
  match findUser db device_id with
  | none => (.error { status := 404, detail := "Device not registered" }, db)
  | some user =>
      (.ok (.entryList (List.insertionSort dateGe (userEntries db user.user_id))), db)

/-- schemas.py `DiaryEntryUpdate`: every field optional.  Pydantic tracks
which fields the request actually set (`exclude_unset`), so each field is
doubly optional: `none` = absent from the request, `some none` = present
with value `null`, `some (some v)` = present with value `v`. -/
structure DiaryEntryUpdate where
  entry_date : Option (Option Int) := none
  mood_score : Option (Option Int) := none
  mood_percentage : Option (Option Int) := none
  activities : Option (Option (List String)) := none
  notes : Option (Option String) := none
deriving DecidableEq

/-- The `setattr` loop of `update_diary_entry` over
`entry_data.dict(exclude_unset=True)`: each field present in the request
(also one present as `null`) overwrites the stored attribute; absent
fields are not touched. -/
def applyUpdate (e : DiaryEntry) (u : DiaryEntryUpdate) : DiaryEntry :=
  { e with
    entry_date := u.entry_date.getD e.entry_date,
    mood_score := u.mood_score.getD e.mood_score,
    mood_percentage := u.mood_percentage.getD e.mood_percentage,
    activities := u.activities.getD e.activities,
    notes := u.notes.getD e.notes }

/-- In-place mutation of the first row matching the predicate (the ORM
object returned by `.first()` is mutated and committed). -/
def replaceFirst (p : DiaryEntry → Bool) (e' : DiaryEntry) : List DiaryEntry → List DiaryEntry
  | [] => []
  | x :: xs => if p x then e' :: xs else x :: replaceFirst p e' xs

/-- main.py `update_diary_entry`: 404 if the device is not registered, 404
if the (user_id, entry_uuid) row is missing, otherwise apply the partial
update and commit; a commit that violates a `NOT NULL` column constraint
raises, is caught by the generic `except`, rolls back, and surfaces as a
500, leaving the store unchanged.  On success `updated_at` is bumped by
the column's `onupdate` hook. -/
def update_diary_entry (db : DB) (entry_uuid device_id : String)
    (u : DiaryEntryUpdate) (now : Nat) : Except HErr HResult × DB :=
  match findUser db device_id with
  | none => (.error { status := 404, detail := "Device not registered" }, db)
  | some user =>
      match findEntry db user.user_id entry_uuid with
      | none => (.error { status := 404, detail := "Diary entry not found" }, db)
      | some e =>
          let e2 := applyUpdate e u
          if e2.notNullOk then
            let e3 := { e2 with updated_at := now }
            (.ok (.envelope
              { success := true, message := "Diary entry updated successfully",
                data := some (.entryData e3.entry_id e3.entry_uuid) }),
             { db with entries := replaceFirst (fun x => x.user_id == user.user_id && x.entry_uuid == entry_uuid) e3 db.entries })
          else
            (.error { status := 500, detail := "Update failed" }, db)

deriving instance DecidableEq for Except

/-! ## Concrete fixtures used by witnesses and counterexamples -/

/-- A registered user with device `"d"`. -/
def u1 : User := { user_id := 1, device_id := "d", created_at := 0, updated_at := 0 }

/-- A stored diary row of user 1 with the given id, uuid and date. -/
def mkEntry (id : Nat) (uuid : String) (date : Int) : DiaryEntry :=
  { entry_id := id, user_id := 1, entry_uuid := uuid, entry_date := some date,
    mood_score := some 3, mood_percentage := some 50, activities := some ["run"],
    notes := some "old", created_at := 0, updated_at := 0 }

/-- Device `"d"` registered, no diary rows. -/
def regDB : DB := { users := [u1], entries := [], next_user_id := 2, next_entry_id := 1 }

/-- Device `"d"` registered with one diary row (uuid `"x"`, date 5). -/
def oneDB : DB :=
  { users := [u1], entries := [mkEntry 1 "x" 5], next_user_id := 2, next_entry_id := 2 }

/-- Device `"d"` with three rows dated 1, 3, 2 in store order. -/
def listDB : DB :=
  { users := [u1], entries := [mkEntry 1 "a" 1, mkEntry 2 "b" 3, mkEntry 3 "c" 2],
    next_user_id := 2, next_entry_id := 4 }

/-- Two rows tied on `entry_date`, store order `a` then `b`. -/
def tieDBA : DB :=
  { users := [u1], entries := [mkEntry 1 "a" 5, mkEntry 2 "b" 5],
    next_user_id := 2, next_entry_id := 3 }

/-- The same two tied rows, store order `b` then `a`. -/
def tieDBB : DB :=
  { users := [u1], entries := [mkEntry 2 "b" 5, mkEntry 1 "a" 5],
    next_user_id := 2, next_entry_id := 3 }

/-- A create request for device `"d"` with uuid `"x"`. -/
def sampleCreate : DiaryEntryCreate :=
  { entry_uuid := "x", entry_date := 7, mood_score := 4, mood_percentage := 80,
    device_id := "d" }

/-! ## Claims -/

/-- C4: creating a diary entry for a device_id that does not resolve to a
registered User fails with 404 "Device not registered" for every payload,
never auto-registers the device, and leaves the store unchanged. -/
theorem create_unregistered_not_found (db : DB) (c : DiaryEntryCreate) (now : Nat)
    (h : findUser db c.device_id = none) :
    create_diary_entry db c now =
      (.error { status := 404, detail := "Device not registered" }, db) := by
  simp [create_diary_entry, h]

/-- Witness for C4 at the empty store and the sample payload. -/
theorem create_unregistered_not_found_witness :
    findUser emptyDB sampleCreate.device_id = none ∧
    create_diary_entry emptyDB sampleCreate 0 =
      (.error { status := 404, detail := "Device not registered" }, emptyDB) :=
  ⟨rfl, create_unregistered_not_found emptyDB sampleCreate 0 rfl⟩

/-- C3: if a DiaryEntry with the resolved (user_id, entry_uuid) already
exists, create fails with 409 "Diary entry already exists" and the store is
unchanged: the existing entry is neither merged nor overwritten and no new
row is persisted. -/
theorem create_duplicate_conflict (db : DB) (c : DiaryEntryCreate) (now : Nat) (user : User)
    (hu : findUser db c.device_id = some user)
    (he : (findEntry db user.user_id c.entry_uuid).isSome = true) :
    create_diary_entry db c now =
      (.error { status := 409, detail := "Diary entry already exists" }, db) := by
  cases h : findEntry db user.user_id c.entry_uuid with
  | none => rw [h] at he; simp at he
  | some e0 => simp [create_diary_entry, hu, h]

/-- Witness for C3: creating uuid `"x"` for device `"d"` a second time. -/
theorem create_duplicate_conflict_witness :
    (findEntry oneDB u1.user_id sampleCreate.entry_uuid).isSome = true ∧
    create_diary_entry oneDB sampleCreate 3 =
      (.error { status := 409, detail := "Diary entry already exists" }, oneDB) :=
  ⟨rfl, create_duplicate_conflict oneDB sampleCreate 3 u1 rfl rfl⟩

/-- C2: registering the same device_id twice returns success both times; the
second call reports "Device already exists", performs no state change (in
particular inserts no second User row), and returns the same data payload —
hence the same user_id — as the first call. -/
theorem register_idempotent (db : DB) (d : String) (t1 t2 : Nat) :
    respSuccess (register_device (register_device db d t1).2 d t2).1 = some true ∧
    respMessage (register_device (register_device db d t1).2 d t2).1 =
      some "Device already exists" ∧
    (register_device (register_device db d t1).2 d t2).2 = (register_device db d t1).2 ∧
    respData (register_device (register_device db d t1).2 d t2).1 =
      respData (register_device db d t1).1 := by
  cases h : findUser db d with
  | some u =>
      simp [register_device, h, respSuccess, respMessage, respData]
  | none =>
      have h' : db.users.find? (fun u => u.device_id == d) = none := h
      have h2 : findUser
          { db with
            users := db.users ++
              [{ user_id := db.next_user_id, device_id := d,
                 created_at := t1, updated_at := t1 }],
            next_user_id := db.next_user_id + 1 } d =
          some { user_id := db.next_user_id, device_id := d,
                 created_at := t1, updated_at := t1 } := by
        simp [findUser, List.find?_append, h']
      simp [register_device, h, h2, respSuccess, respMessage, respData]

/-- An update request that sets no field. -/
def emptyUpdate : DiaryEntryUpdate := {}

/-- C5: for a registered device, list succeeds with exactly the rows owned
by that user ordered by entry_date descending, and when the user owns zero
rows the result is the empty sequence, still a success. -/
theorem list_entries_sorted_desc (db : DB) (d : String) (user : User)
    (hu : findUser db d = some user) :
    ∃ es, get_diary_entries db d = (.ok (.entryList es), db) ∧
      es.Perm (userEntries db user.user_id) ∧
      List.Sorted dateGe es ∧
      (userEntries db user.user_id = [] → es = []) := by
  refine ⟨List.insertionSort dateGe (userEntries db user.user_id), ?_, ?_, ?_, ?_⟩
  · simp [get_diary_entries, hu]
  · exact List.perm_insertionSort _ _
  · exact List.sorted_insertionSort _ _
  · intro h; rw [h]; rfl

/-- Witness for C5 at the store with rows dated 1, 3, 2. -/
theorem list_entries_sorted_desc_witness :
    findUser listDB "d" = some u1 ∧
    ∃ es, get_diary_entries listDB "d" = (.ok (.entryList es), listDB) ∧
      es.Perm (userEntries listDB u1.user_id) ∧
      List.Sorted dateGe es ∧
      (userEntries listDB u1.user_id = [] → es = []) :=
  ⟨rfl, list_entries_sorted_desc listDB "d" u1 rfl⟩

/-- C6 counterexample: the list query names no secondary sort key, so the
relative order of entries tied on entry_date is not fixed by any key of the
entry data: two stores holding exactly the same rows (equal as multisets,
identical users) list the tied entries in different relative orders — the
tie order merely follows the storage engine's row order. -/
theorem list_tie_order_not_data_determined :
    tieDBA.users = tieDBB.users ∧
    tieDBA.entries.Perm tieDBB.entries ∧
    get_diary_entries tieDBA "d" ≠ get_diary_entries tieDBB "d" :=
  ⟨rfl, by decide, by decide⟩

/-- C6 amended: the code orders only by entry_date descending; ties keep the
storage engine's row order (the sort is stable over the store order), so for
a fixed store row order the tie order is deterministic, but it is not
determined by any secondary key of the entry data. -/
theorem list_tie_order_follows_store (db : DB) (d : String) (user : User)
    (e1 e2 : DiaryEntry)
    (hu : findUser db d = some user)
    (hsub : [e1, e2].Sublist (userEntries db user.user_id))
    (htie : e1.entry_date = e2.entry_date) :
    ∃ es, get_diary_entries db d = (.ok (.entryList es), db) ∧ [e1, e2].Sublist es := by
  refine ⟨List.insertionSort dateGe (userEntries db user.user_id), ?_, ?_⟩
  · simp [get_diary_entries, hu]
  · refine List.sublist_insertionSort ?_ hsub
    have hge : dateGe e1 e2 := by simp [dateGe, dateKey, htie]
    simp [List.pairwise_cons, hge]

/-- Witness for C6 amended at the tied store `tieDBA`. -/
theorem list_tie_order_follows_store_witness :
    [mkEntry 1 "a" 5, mkEntry 2 "b" 5].Sublist (userEntries tieDBA u1.user_id) ∧
    ∃ es, get_diary_entries tieDBA "d" = (.ok (.entryList es), tieDBA) ∧
      [mkEntry 1 "a" 5, mkEntry 2 "b" 5].Sublist es :=
  ⟨by decide, list_tie_order_follows_store tieDBA "d" u1 _ _ rfl (by decide) rfl⟩

/-- C8 counterexample: at a concrete store the success result of list is the
bare array of rows, carrying no success flag, message or data payload —
unlike the other three handlers, which return the APIResponse envelope. -/
theorem list_success_lacks_envelope :
    (get_diary_entries regDB "d").1 = .ok (.entryList []) ∧
    HResult.hasEnvelope (.entryList []) = false ∧
    respSuccess (get_diary_entries regDB "d").1 = none ∧
    respMessage (get_diary_entries regDB "d").1 = none :=
  ⟨rfl, rfl, rfl, rfl⟩

/-- C8 amended: register, create and update wrap every success body in the
`{success, message, data}` envelope, but list does not: its success body is
the bare list of rows. -/
theorem envelope_by_operation (db : DB) (d uuid : String) (c : DiaryEntryCreate)
    (u : DiaryEntryUpdate) (now : Nat) :
    (register_device db d now).1.toOption.elim true HResult.hasEnvelope = true ∧
    (create_diary_entry db c now).1.toOption.elim true HResult.hasEnvelope = true ∧
    (update_diary_entry db uuid d u now).1.toOption.elim true HResult.hasEnvelope = true ∧
    (get_diary_entries db d).1.toOption.elim false HResult.hasEnvelope = false := by
  refine ⟨?_, ?_, ?_, ?_⟩
  · cases h : findUser db d <;>
      simp [register_device, h, Except.toOption, HResult.hasEnvelope]
  · cases h : findUser db c.device_id
    · simp [create_diary_entry, h, Except.toOption]
    · rename_i user
      cases h2 : findEntry db user.user_id c.entry_uuid <;>
        simp [create_diary_entry, h, h2, Except.toOption, HResult.hasEnvelope]
  · cases h : findUser db d
    · simp [update_diary_entry, h, Except.toOption]
    · rename_i user
      cases h2 : findEntry db user.user_id uuid
      · simp [update_diary_entry, h, h2, Except.toOption]
      · rename_i e
        by_cases h3 : (applyUpdate e u).notNullOk = true <;>
          simp [update_diary_entry, h, h2, h3, Except.toOption, HResult.hasEnvelope]
  · cases h : findUser db d <;>
      simp [get_diary_entries, h, Except.toOption, HResult.hasEnvelope]

/-- C9 counterexample: registering with device_id the empty string is not
rejected: it succeeds and inserts a User row whose device_id is `""`. -/
theorem register_empty_device_id_succeeds :
    (registerEndpoint emptyDB (some "") 0).1 =
      .ok (.envelope
        { success := true, message := "Device registered successfully",
          data := some (.userData 1 "") }) ∧
    (registerEndpoint emptyDB (some "") 0).2.users =
      [{ user_id := 1, device_id := "", created_at := 0, updated_at := 0 }] :=
  ⟨rfl, rfl⟩

/-- C9 amended: only a missing device_id field is rejected (pydantic 422
validation failure, no row inserted, store unchanged); an empty-string
device_id is accepted like any other string and, when unregistered, creates
a User row with device_id `""`. -/
theorem register_missing_vs_empty_device_id (db : DB) (now : Nat) :
    registerEndpoint db none now =
      (.error { status := 422, detail := "Field required" }, db) ∧
    (findUser db "" = none →
      respSuccess (registerEndpoint db (some "") now).1 = some true ∧
      (registerEndpoint db (some "") now).2.users =
        db.users ++
          [{ user_id := db.next_user_id, device_id := "",
             created_at := now, updated_at := now }]) := by
  constructor
  · rfl
  · intro h
    simp [registerEndpoint, parseUserCreate, register_device, h, respSuccess]

/-- Witness for C9 amended at the empty store. -/
theorem register_missing_vs_empty_device_id_witness :
    registerEndpoint emptyDB none 5 =
      (.error { status := 422, detail := "Field required" }, emptyDB) ∧
    respSuccess (registerEndpoint emptyDB (some "") 5).1 = some true ∧
    (registerEndpoint emptyDB (some "") 5).2.users =
      [{ user_id := 1, device_id := "", created_at := 5, updated_at := 5 }] := by
  refine ⟨(register_missing_vs_empty_device_id emptyDB 5).1, ?_, ?_⟩
  · exact ((register_missing_vs_empty_device_id emptyDB 5).2 rfl).1
  · exact ((register_missing_vs_empty_device_id emptyDB 5).2 rfl).2

/-- An update request setting only `notes` (to `"new"`). -/
def notesUpdate : DiaryEntryUpdate := { notes := some (some "new") }

/-- The replacement row is a member of the result whenever some row of the
list matches the predicate. -/
theorem mem_replaceFirst_self {p : DiaryEntry → Bool} {e' : DiaryEntry} :
    ∀ {l : List DiaryEntry}, (∃ x ∈ l, p x = true) → e' ∈ replaceFirst p e' l := by
  intro l h
  induction l with
  | nil => simp at h
  | cons a as ih =>
      by_cases hpa : p a = true
      · simp [replaceFirst, hpa]
      · rcases h with ⟨x, hx, hpx⟩
        rcases List.mem_cons.mp hx with rfl | hx'
        · exact absurd hpx hpa
        · simp only [replaceFirst, hpa, if_false, Bool.false_eq_true, List.mem_cons]
          exact Or.inr (ih ⟨x, hx', hpx⟩)

/-- Every row of the result of `replaceFirst` is either an original row or
the replacement row. -/
theorem mem_of_mem_replaceFirst {p : DiaryEntry → Bool} {e' x : DiaryEntry} :
    ∀ {l : List DiaryEntry}, x ∈ replaceFirst p e' l → x ∈ l ∨ x = e' := by
  intro l hx
  induction l with
  | nil => simp [replaceFirst] at hx
  | cons a as ih =>
      by_cases hpa : p a = true <;>
        simp only [replaceFirst, hpa, if_true, if_false, Bool.false_eq_true, List.mem_cons] at hx
      · rcases hx with rfl | hx'
        · exact Or.inr rfl
        · exact Or.inl (List.mem_cons_of_mem _ hx')
      · rcases hx with rfl | hx'
        · exact Or.inl (List.mem_cons_self _ _)
        · rcases ih hx' with h1 | h1
          · exact Or.inl (List.mem_cons_of_mem _ h1)
          · exact Or.inr h1

/-- C1: partial update is merge-patch: on a successful update, every field
absent from the request keeps its prior stored value, and a present `notes`
takes the new value. -/
theorem update_merge_patch (db : DB) (uuid d : String) (u : DiaryEntryUpdate)
    (now : Nat) (user : User) (e : DiaryEntry)
    (hu : findUser db d = some user)
    (he : findEntry db user.user_id uuid = some e)
    (hok : (applyUpdate e u).notNullOk = true) :
    ∃ a db2, update_diary_entry db uuid d u now = (.ok (.envelope a), db2) ∧
      a.success = true ∧
      ∃ e2, e2 ∈ db2.entries ∧ e2.entry_id = e.entry_id ∧
        (u.entry_date = none → e2.entry_date = e.entry_date) ∧
        (u.mood_score = none → e2.mood_score = e.mood_score) ∧
        (u.mood_percentage = none → e2.mood_percentage = e.mood_percentage) ∧
        (u.activities = none → e2.activities = e.activities) ∧
        (u.notes = none → e2.notes = e.notes) ∧
        (∀ v, u.notes = some v → e2.notes = v) := by
  have hstep : update_diary_entry db uuid d u now =
      (.ok (.envelope
        { success := true, message := "Diary entry updated successfully",
          data := some (.entryData (applyUpdate e u).entry_id (applyUpdate e u).entry_uuid) }),
       { db with entries :=
           (replaceFirst (fun x => x.user_id == user.user_id && x.entry_uuid == uuid)
             { applyUpdate e u with updated_at := now } db.entries) }) := by
    simp [update_diary_entry, hu, he, hok]
  refine ⟨_, _, hstep, rfl, ?_⟩
  have he' : db.entries.find?
      (fun x => x.user_id == user.user_id && x.entry_uuid == uuid) = some e := he
  have hpe := List.find?_some he'
  refine ⟨{ applyUpdate e u with updated_at := now },
    mem_replaceFirst_self ⟨e, List.mem_of_find?_eq_some he', hpe⟩,
    rfl, ?_, ?_, ?_, ?_, ?_, ?_⟩
  · intro h; simp [applyUpdate, h]
  · intro h; simp [applyUpdate, h]
  · intro h; simp [applyUpdate, h]
  · intro h; simp [applyUpdate, h]
  · intro h; simp [applyUpdate, h]
  · intro v h; simp [applyUpdate, h]

/-- Witness for C1: updating only notes on the stored row (uuid `"x"`). -/
theorem update_merge_patch_witness :
    ∃ a db2, update_diary_entry oneDB "x" "d" notesUpdate 9 = (.ok (.envelope a), db2) ∧
      a.success = true ∧
      ∃ e2, e2 ∈ db2.entries ∧ e2.entry_id = (mkEntry 1 "x" 5).entry_id ∧
        (notesUpdate.entry_date = none → e2.entry_date = (mkEntry 1 "x" 5).entry_date) ∧
        (notesUpdate.mood_score = none → e2.mood_score = (mkEntry 1 "x" 5).mood_score) ∧
        (notesUpdate.mood_percentage = none →
          e2.mood_percentage = (mkEntry 1 "x" 5).mood_percentage) ∧
        (notesUpdate.activities = none → e2.activities = (mkEntry 1 "x" 5).activities) ∧
        (notesUpdate.notes = none → e2.notes = (mkEntry 1 "x" 5).notes) ∧
        (∀ v, notesUpdate.notes = some v → e2.notes = v) :=
  update_merge_patch oneDB "x" "d" notesUpdate 9 u1 (mkEntry 1 "x" 5) rfl rfl rfl

/-- C7: the update mechanism can only assign the five content fields, so
every row after an update — on any path, success or failure — keeps the
identity fields (entry_id, owning user_id, entry_uuid, created_at) of a row
already in the store: the ownership established at creation is immutable. -/
theorem update_preserves_identity (db : DB) (uuid d : String) (u : DiaryEntryUpdate)
    (now : Nat) (e2 : DiaryEntry)
    (h : e2 ∈ (update_diary_entry db uuid d u now).2.entries) :
    ∃ e ∈ db.entries, e2.entry_id = e.entry_id ∧ e2.user_id = e.user_id ∧
      e2.entry_uuid = e.entry_uuid ∧ e2.created_at = e.created_at := by
  cases hu : findUser db d
  · simp [update_diary_entry, hu] at h
    exact ⟨e2, h, rfl, rfl, rfl, rfl⟩
  · rename_i user
    cases he : findEntry db user.user_id uuid
    · simp [update_diary_entry, hu, he] at h
      exact ⟨e2, h, rfl, rfl, rfl, rfl⟩
    · rename_i e
      have he' : db.entries.find?
          (fun x => x.user_id == user.user_id && x.entry_uuid == uuid) = some e := he
      by_cases hok : (applyUpdate e u).notNullOk = true
      · simp [update_diary_entry, hu, he, hok] at h
        rcases mem_of_mem_replaceFirst h with h1 | rfl
        · exact ⟨e2, h1, rfl, rfl, rfl, rfl⟩
        · exact ⟨e, List.mem_of_find?_eq_some he', rfl, rfl, rfl, rfl⟩
      · simp [update_diary_entry, hu, he, hok] at h
        exact ⟨e2, h, rfl, rfl, rfl, rfl⟩

/-- Witness for C7: the row left by the notes-only update keeps the identity
fields of the originally stored row. -/
theorem update_preserves_identity_witness :
    ∃ e ∈ oneDB.entries,
      ({ mkEntry 1 "x" 5 with notes := some "new", updated_at := 9 } : DiaryEntry).entry_id
          = e.entry_id ∧
      ({ mkEntry 1 "x" 5 with notes := some "new", updated_at := 9 } : DiaryEntry).user_id
          = e.user_id ∧
      ({ mkEntry 1 "x" 5 with notes := some "new", updated_at := 9 } : DiaryEntry).entry_uuid
          = e.entry_uuid ∧
      ({ mkEntry 1 "x" 5 with notes := some "new", updated_at := 9 } : DiaryEntry).created_at
          = e.created_at :=
  update_preserves_identity oneDB "x" "d" notesUpdate 9 _ (by decide)

/-- C10: a field present in the update request with a null value is applied,
not treated as absent (the merge uses presence-in-request): `notes := null`
clears the stored notes and succeeds, while `mood_score := null` — a
non-nullable column — is applied to the row and fails only at the storage
layer (NOT NULL violation at commit, 500, rollback leaves the store
unchanged). -/
theorem update_null_field_semantics (db : DB) (uuid d : String) (now : Nat)
    (user : User) (e : DiaryEntry)
    (hu : findUser db d = some user)
    (he : findEntry db user.user_id uuid = some e)
    (hok : e.notNullOk = true) :
    (∃ a db2, update_diary_entry db uuid d { notes := some none } now =
        (.ok (.envelope a), db2) ∧ a.success = true ∧
      ∃ e2, e2 ∈ db2.entries ∧ e2.entry_id = e.entry_id ∧ e2.notes = none) ∧
    update_diary_entry db uuid d { mood_score := some none } now =
      (.error { status := 500, detail := "Update failed" }, db) := by
  constructor
  · have hok1 : (applyUpdate e { notes := some none }).notNullOk = true := by
      simpa [applyUpdate, DiaryEntry.notNullOk] using hok
    have hstep : update_diary_entry db uuid d { notes := some none } now =
        (.ok (.envelope
          { success := true, message := "Diary entry updated successfully",
            data := some (.entryData (applyUpdate e { notes := some none }).entry_id
              (applyUpdate e { notes := some none }).entry_uuid) }),
         { db with entries :=
             (replaceFirst (fun x => x.user_id == user.user_id && x.entry_uuid == uuid)
               { applyUpdate e { notes := some none } with updated_at := now } db.entries) }) := by
      simp [update_diary_entry, hu, he, hok1]
    have he' : db.entries.find?
        (fun x => x.user_id == user.user_id && x.entry_uuid == uuid) = some e := he
    have hpe := List.find?_some he'
    exact ⟨_, _, hstep, rfl,
      ⟨{ applyUpdate e { notes := some none } with updated_at := now },
        mem_replaceFirst_self ⟨e, List.mem_of_find?_eq_some he', hpe⟩,
        rfl, rfl⟩⟩
  · have hbad : (applyUpdate e { mood_score := some none }).notNullOk = false := by
      simp [applyUpdate, DiaryEntry.notNullOk]
    simp [update_diary_entry, hu, he, hbad]

/-- Witness for C10 at the store with one row (notes `"old"`, mood_score 3). -/
theorem update_null_field_semantics_witness :
    (∃ a db2, update_diary_entry oneDB "x" "d" { notes := some none } 9 =
        (.ok (.envelope a), db2) ∧ a.success = true ∧
      ∃ e2, e2 ∈ db2.entries ∧ e2.entry_id = (mkEntry 1 "x" 5).entry_id ∧
        e2.notes = none) ∧
    update_diary_entry oneDB "x" "d" { mood_score := some none } 9 =
      (.error { status := 500, detail := "Update failed" }, oneDB) :=
  update_null_field_semantics oneDB "x" "d" 9 u1 (mkEntry 1 "x" 5) rfl rfl rfl

end NoEmoVibe
